import Mathlib

/-!
Shallow embedding of the Mesos posix launcher
(`src/slave/containerizer/mesos/launcher.cpp`): container identities,
the pid registry owned by `PosixLauncher`, and the operations
`buildPathFromHierarchy`, `recover`, `fork`, `destroy` / `_destroy` and
`status`.  External collaborators (the `subprocess` spawn primitive,
`os::killtree`, `process::reap`) are modelled at their interface
boundary: their outcome is an explicit argument of the operation that
consumes it.
-/

set_option autoImplicit false

/-- A `mesos::ContainerID`: a leaf label (`value()`) with an optional
parent (`has_parent()` / `parent()`), forming a chain up to a root-most
ancestor. -/
inductive ContainerID where
  | leaf (value : String)
  | child (value : String) (par : ContainerID)
deriving DecidableEq, Repr

/-- `containerId.value()`. -/
def ContainerID.value : ContainerID → String
  | .leaf v => v
  | .child v _ => v

/-- `containerId.has_parent()`. -/
def ContainerID.hasParent : ContainerID → Bool
  | .leaf _ => false
  | .child _ _ => true

/-- `pid_t`. -/
abbrev Pid := Int

/-- The `pids` member of `PosixLauncher`: a
`hashmap<ContainerID, pid_t>` modelled as an association list with at
most one entry per key (maintained by `putPid`). -/
abbrev Registry := List (ContainerID × Pid)

/-- `hashmap::contains(key)`. -/
def containsKey : Registry → ContainerID → Bool
  | [], _ => false
  | e :: r, k => if e.1 = k then true else containsKey r k

/-- `hashmap::containsValue(value)`: true when some entry, for any key,
holds this value. -/
def containsValue : Registry → Pid → Bool
  | [], _ => false
  | e :: r, v => if e.2 = v then true else containsValue r v

/-- `hashmap::get(key)`: `Option<pid_t>`. -/
def lookupKey : Registry → ContainerID → Option Pid
  | [], _ => none
  | e :: r, k => if e.1 = k then some e.2 else lookupKey r k

/-- `hashmap::put(key, value)`: insert, or overwrite the value stored
for an existing key. -/
def putPid : Registry → ContainerID → Pid → Registry
  | [], k, v => [(k, v)]
  | e :: r, k, v => if e.1 = k then (k, v) :: r else e :: putPid r k v

/-- `hashmap::erase(key)`: remove the entry for this key (unique under
the map abstraction). -/
def eraseKey : Registry → ContainerID → Registry
  | [], _ => []
  | e :: r, k => if e.1 = k then eraseKey r k else e :: eraseKey r k

/-- `unordered_map::operator[]`: the value stored at the key, with
default-insertion of `0` when the key is absent (in `status` the call is
guarded by `contains`, so the insertion branch is unreachable there). -/
def bracketGet : Registry → ContainerID → Pid × Registry
  | [], k => (0, [(k, 0)])
  | e :: r, k =>
      if e.1 = k then (e.2, e :: r)
      else ((bracketGet r k).1, e :: (bracketGet r k).2)

/-- `strings::remove(s, "/", SUFFIX)` as used by `path::join`. -/
def stripTrailingSlash (s : String) : String :=
  if s.endsWith "/" then s.dropRight 1 else s

/-- `strings::remove(s, "/", PREFIX)` as used by `path::join`. -/
def stripLeadingSlash (s : String) : String :=
  if s.startsWith "/" then s.drop 1 else s

/-- `path::join(p1, p2)` from stout. -/
def pathJoin (p1 p2 : String) : String :=
  stripTrailingSlash p1 ++ "/" ++ stripLeadingSlash p2

/-- The `while (containerId.has_parent())` loop of
`Launcher::buildPathFromHierarchy`: each iteration moves to the parent
and sets `path = path::join(prefix, containerId.value(), path)` (the
variadic `path::join` folds to the right). -/
def buildLoop : ContainerID → String → String → String
  | .leaf _, _, path => path
  | .child _ par, pre, path =>
      buildLoop par pre (pathJoin pre (pathJoin par.value path))

/-- `Launcher::buildPathFromHierarchy(containerId, prefix)`. -/
def buildPathFromHierarchy (containerId : ContainerID) (pre : String) : String :=
  buildLoop containerId pre (pathJoin pre containerId.value)

/-- Labels of the chain from the root-most ancestor down to the identity
itself (root first, leaf last). -/
def chainLabels : ContainerID → List String
  | .leaf v => [v]
  | .child v par => chainLabels par ++ [v]

/-- Labels of the strict ancestors, root first. -/
def ancestorLabels : ContainerID → List String
  | .leaf _ => []
  | .child _ par => ancestorLabels par ++ [par.value]

/-- Number of ancestors of an identity (0 for a childless identity). -/
def numAncestors : ContainerID → Nat
  | .leaf _ => 0
  | .child _ par => numAncestors par + 1

/-- Join one `prefix/label` segment per chain element, ancestor to
descendant, the prefix applied at every level:
`join(pre, l1, join(pre, l2, ..., join(pre, ln)))`. -/
def joinSegments (pre : String) : List String → String
  | [] => ""
  | l :: ls =>
      match ls with
      | [] => pathJoin pre l
      | _ :: _ => pathJoin pre (pathJoin l (joinSegments pre ls))

/-- A `Try<T>` / `Failure` outcome carrying an error message. -/
inductive TryResult (α : Type) where
  | ok (a : α)
  | err (msg : String)
deriving DecidableEq, Repr

/-- Result of `PosixLauncher::recover`: either the (empty) set of
orphaned containers, or a `Failure`. -/
inductive RecoverResult where
  | ok (orphans : List ContainerID)
  | failure (msg : String)
deriving DecidableEq, Repr

/-- `stringify(containerId)` in the error messages.  Modelled from the
spec: the operator that renders a `ContainerID` lives outside this
fragment; the spec only requires the error to name the container
identity, which the leaf label does. -/
def stringifyCid (c : ContainerID) : String := c.value

/-- `PosixLauncher::recover(states)`: iterate over the checkpointed
(identity, pid) associations; fail on a pid that is already a registry
value, otherwise `pids.put` the association.  The registry is a member
of the launcher, so entries inserted before a failure persist: the
second component is the registry as left behind in either case. -/
def recover : Registry → List (ContainerID × Pid) → RecoverResult × Registry
  | pids, [] => (.ok [], pids)
  | pids, (containerId, pid) :: rest =>
      if containsValue pids pid then
        (.failure ("Detected duplicate pid " ++ toString pid ++
          " for container " ++ stringifyCid containerId), pids)
      else
        recover (putPid pids containerId pid) rest

/-- `namespaces.isSome() && namespaces.get() != 0`. -/
def namespacesRequested : Option Int → Bool
  | some n => if n = 0 then false else true
  | none => false

/-- Outcome of one `PosixLauncher::fork` call: the returned
`Try<pid_t>`, the registry it leaves behind, and whether the
`subprocess` collaborator was invoked. -/
structure ForkResult where
  result : TryResult Pid
  pids : Registry
  spawnInvoked : Bool
deriving DecidableEq, Repr

/-- `PosixLauncher::fork(containerId, path, argv, ..., namespaces,
parentHooks)`: reject a nonzero namespaces request, reject an identity
that already has a registry entry, then delegate to the `subprocess`
collaborator (whose outcome, given the launch arguments, is the `spawn`
parameter; the `SETSID` detach mode and the platform-conditional
systemd lifetime hook are part of that delegated call) and register the
child pid on success. -/
def fork (pids : Registry) (containerId : ContainerID)
    (namespaces : Option Int) (spawn : TryResult Pid) : ForkResult :=
  if namespacesRequested namespaces then
    { result := .err "Posix launcher does not support namespaces",
      pids := pids, spawnInvoked := false }
  else if containsKey pids containerId then
    { result := .err ("Process has already been forked for container " ++
        stringifyCid containerId),
      pids := pids, spawnInvoked := false }
  else
    match spawn with
    | .err msg =>
        { result := .err ("Failed to fork a child process: " ++ msg),
          pids := pids, spawnInvoked := true }
    | .ok childPid =>
        { result := .ok childPid,
          pids := putPid pids containerId childPid, spawnInvoked := true }

/-- Immediate outcome of `PosixLauncher::destroy`: either an immediate
`Failure` for an unknown container, or a future gated on
`process::reap(pid)` for the registry entry's pid, to be completed by
`_destroy` once the reap future settles. -/
inductive DestroyOutcome where
  | unknown (msg : String)
  | pending (pid : Pid)
deriving DecidableEq, Repr

/-- State of a `process::Future` at the time a continuation observes
it: ready with a value, failed with a message, or neither (discarded /
abandoned). -/
inductive FutureState (α : Type) where
  | ready (a : α)
  | failed (msg : String)
  | discarded
deriving DecidableEq, Repr

/-- `PosixLauncher::destroy(containerId)`: fail for an unknown
container; otherwise read the pid, issue `os::killtree(pid, SIGKILL,
true, true)` (its `Try` result — the `killtree` parameter — is bound
and discarded), erase the registry entry, and return the future
`process::reap(pid).then(_destroy)`. -/
def destroy (pids : Registry) (containerId : ContainerID)
    (killtree : TryResult (List Unit)) : DestroyOutcome × Registry :=
  if !(containsKey pids containerId) then
    (.unknown ("Unknown container " ++ containerId.value), pids)
  else
    let pid := (lookupKey pids containerId).getD 0
    let _trees := killtree
    (.pending pid, eraseKey pids containerId)

/-- `_destroy(future)`: the continuation chained on the reap future.
`Nothing()` when the reap future is ready (with any `Option<int>` exit
status), otherwise a `Failure` carrying the reap failure message or
"unknown error". -/
def _destroy (future : FutureState (Option Int)) : TryResult Unit :=
  match future with
  | .ready _ => .ok ()
  | .failed msg => .err ("Failed to kill all processes: " ++ msg)
  | .discarded => .err ("Failed to kill all processes: " ++ "unknown error")

/-- `mesos::ContainerStatus` as populated by `PosixLauncher::status`. -/
structure ContainerStatus where
  executor_pid : Pid
deriving DecidableEq, Repr

/-- `PosixLauncher::status(containerId)`: fail for an unknown
container, otherwise return a snapshot holding `pids[containerId]`
(and the registry `operator[]` leaves behind, to make the absence of
mutation provable). -/
def status (pids : Registry) (containerId : ContainerID) :
    TryResult ContainerStatus × Registry :=
  if !(containsKey pids containerId) then
    (.err "Container does not exist!", pids)
  else
    let g := bracketGet pids containerId
    (.ok { executor_pid := g.1 }, g.2)

/-! ### Registry lemmas -/

theorem containsKey_eq_isSome_lookupKey (r : Registry) (k : ContainerID) :
    containsKey r k = (lookupKey r k).isSome := by
  induction r with
  | nil => rfl
  | cons e r ih =>
      by_cases h : e.1 = k <;> simp [containsKey, lookupKey, h, ih]

theorem containsValue_iff (r : Registry) (v : Pid) :
    containsValue r v = true ↔ ∃ e ∈ r, e.2 = v := by
  induction r with
  | nil => simp [containsValue]
  | cons e r ih =>
      by_cases h : e.2 = v <;> simp [containsValue, h, ih]

theorem lookupKey_putPid_self (r : Registry) (k : ContainerID) (v : Pid) :
    lookupKey (putPid r k v) k = some v := by
  induction r with
  | nil => simp [putPid, lookupKey]
  | cons e r ih =>
      by_cases h : e.1 = k <;> simp [putPid, lookupKey, h, ih]

theorem containsKey_putPid_self (r : Registry) (k : ContainerID) (v : Pid) :
    containsKey (putPid r k v) k = true := by
  rw [containsKey_eq_isSome_lookupKey, lookupKey_putPid_self]
  rfl

theorem containsKey_eraseKey_self (r : Registry) (k : ContainerID) :
    containsKey (eraseKey r k) k = false := by
  induction r with
  | nil => rfl
  | cons e r ih =>
      by_cases h : e.1 = k <;> simp [eraseKey, containsKey, h, ih]

theorem bracketGet_of_containsKey (r : Registry) (k : ContainerID)
    (h : containsKey r k = true) :
    bracketGet r k = ((lookupKey r k).getD 0, r) := by
  induction r with
  | nil => simp [containsKey] at h
  | cons e r ih =>
      by_cases he : e.1 = k
      · simp [bracketGet, lookupKey, he]
      · simp [containsKey, he] at h
        simp [bracketGet, lookupKey, he, ih h]

/-! ### Hierarchy-path lemmas -/

theorem buildLoop_eq_foldr (cid : ContainerID) : ∀ (pre path : String),
    buildLoop cid pre path =
      (ancestorLabels cid).foldr
        (fun a acc => pathJoin pre (pathJoin a acc)) path := by
  induction cid with
  | leaf v => intro pre path; rfl
  | child v par ih =>
      intro pre path
      show buildLoop par pre (pathJoin pre (pathJoin par.value path)) = _
      rw [ih]
      simp [ancestorLabels, List.foldr_append]

theorem chainLabels_eq_ancestors (cid : ContainerID) :
    chainLabels cid = ancestorLabels cid ++ [cid.value] := by
  induction cid with
  | leaf v => rfl
  | child v par ih =>
      simp [chainLabels, ancestorLabels, ih, ContainerID.value]

theorem chainLabels_length (cid : ContainerID) :
    (chainLabels cid).length = numAncestors cid + 1 := by
  induction cid with
  | leaf v => rfl
  | child v par ih => simp [chainLabels, numAncestors, ih]

theorem joinSegments_append (pre v : String) (as : List String) :
    joinSegments pre (as ++ [v]) =
      as.foldr (fun a acc => pathJoin pre (pathJoin a acc)) (pathJoin pre v) := by
  induction as with
  | nil => rfl
  | cons a as ih =>
      cases as with
      | nil => rfl
      | cons b bs =>
          rw [List.cons_append, List.foldr_cons, ← ih]
          rfl

/-- Recovery over a concatenation: once a prefix has been processed
without a duplicate, processing continues on the resulting registry. -/
theorem recover_append (xs : List (ContainerID × Pid)) :
    ∀ (s s' : Registry) (ys : List (ContainerID × Pid)),
      recover s xs = (RecoverResult.ok [], s') →
      recover s (xs ++ ys) = recover s' ys := by
  induction xs with
  | nil =>
      intro s s' ys h
      simp only [recover, Prod.mk.injEq, RecoverResult.ok.injEq, true_and] at h
      rw [List.nil_append, h]
  | cons hd tl ih =>
      intro s s' ys h
      obtain ⟨c, p⟩ := hd
      by_cases hc : containsValue s p = true
      · simp [recover, hc] at h
      · simp only [Bool.not_eq_true] at hc
        simp only [recover, hc, Bool.false_eq_true, if_false] at h ⊢
        exact ih _ _ _ h

/-- C2: for every identity and prefix, the hierarchical-path derivation
is total and deterministic, equals the ancestor-to-descendant join of
one prefixed segment per chain level, produces a chain of exactly
N + 1 labels for an identity with N ancestors (root first, leaf last),
and for a childless identity yields `prefix/label`. -/
theorem buildPathFromHierarchy_spec (cid : ContainerID) (pre : String) :
    buildPathFromHierarchy cid pre = joinSegments pre (chainLabels cid) ∧
    (chainLabels cid).length = numAncestors cid + 1 ∧
    (∀ v, buildPathFromHierarchy (ContainerID.leaf v) pre = pathJoin pre v) := by
  refine ⟨?_, chainLabels_length cid, fun v => rfl⟩
  rw [buildPathFromHierarchy, buildLoop_eq_foldr, chainLabels_eq_ancestors,
    joinSegments_append]

/-- C5: when an identity already holds a registry entry from a first
fork, a second fork on it (with any spawn outcome and no namespace
request) fails with the already-launched error, does not invoke the
spawn collaborator, and leaves the registry unchanged, still holding
the first handle. -/
theorem fork_twice_already_launched (pids : Registry) (cid : ContainerID)
    (p1 : Pid) (ns2 : Option Int) (sp2 : TryResult Pid)
    (h : containsKey pids cid = false)
    (hns : namespacesRequested ns2 = false) :
    (fork pids cid none (.ok p1)).result = .ok p1 ∧
    fork (fork pids cid none (.ok p1)).pids cid ns2 sp2 =
      { result := .err ("Process has already been forked for container " ++
          stringifyCid cid),
        pids := (fork pids cid none (.ok p1)).pids,
        spawnInvoked := false } ∧
    lookupKey (fork pids cid none (.ok p1)).pids cid = some p1 := by
  have h1 : fork pids cid none (.ok p1) =
      { result := .ok p1, pids := putPid pids cid p1, spawnInvoked := true } := by
    simp [fork, namespacesRequested, h]
  rw [h1]
  refine ⟨rfl, ?_, lookupKey_putPid_self pids cid p1⟩
  simp [fork, hns, containsKey_putPid_self]

/-- C6: a fork whose namespaces request is present and nonzero fails
with the capability-unsupported error before any spawn attempt: the
spawn collaborator is not invoked and the registry is unchanged. -/
theorem fork_namespaces_unsupported (pids : Registry) (cid : ContainerID)
    (n : Int) (sp : TryResult Pid) (h : n ≠ 0) :
    fork pids cid (some n) sp =
      { result := .err "Posix launcher does not support namespaces",
        pids := pids, spawnInvoked := false } := by
  simp [fork, namespacesRequested, h]

/-- C7: a successful fork followed immediately by status on the same
identity returns a snapshot whose pid equals the handle fork returned,
and status leaves the registry exactly as it was. -/
theorem fork_then_status (pids : Registry) (cid : ContainerID) (p : Pid)
    (h : containsKey pids cid = false) :
    (fork pids cid none (.ok p)).result = .ok p ∧
    status (fork pids cid none (.ok p)).pids cid =
      (.ok { executor_pid := p }, (fork pids cid none (.ok p)).pids) := by
  have h1 : fork pids cid none (.ok p) =
      { result := .ok p, pids := putPid pids cid p, spawnInvoked := true } := by
    simp [fork, namespacesRequested, h]
  rw [h1]
  refine ⟨rfl, ?_⟩
  have hc := containsKey_putPid_self pids cid p
  simp [status, hc, bracketGet_of_containsKey _ _ hc, lookupKey_putPid_self]

/-- C10: a present but zero namespaces request does not trip the
capability check: fork behaves exactly as if no namespaces request had
been supplied. -/
theorem fork_zero_namespaces_accepted (pids : Registry) (cid : ContainerID)
    (sp : TryResult Pid) :
    fork pids cid (some 0) sp = fork pids cid none sp := rfl

/-- C3: for a registered identity, destroy returns a future gated on
reaping the entry's pid, independent of the kill-tree outcome; the
future resolves successfully for a ready reap with any exit status
(including none), and fails with the teardown error carrying the reap
failure's cause, or "unknown error" when no cause is discoverable. -/
theorem destroy_reap_spec (pids : Registry) (cid : ContainerID)
    (kt : TryResult (List Unit)) (pid : Pid)
    (h : lookupKey pids cid = some pid) :
    (destroy pids cid kt).1 = DestroyOutcome.pending pid ∧
    (∀ kt', destroy pids cid kt' = destroy pids cid kt) ∧
    (∀ x : Option Int, _destroy (.ready x) = .ok ()) ∧
    (∀ msg, _destroy (.failed msg) =
      .err ("Failed to kill all processes: " ++ msg)) ∧
    _destroy .discarded =
      .err ("Failed to kill all processes: " ++ "unknown error") := by
  have hck : containsKey pids cid = true := by
    rw [containsKey_eq_isSome_lookupKey, h]; rfl
  refine ⟨?_, fun kt' => rfl, fun x => rfl, fun msg => rfl, rfl⟩
  simp [destroy, hck, h]

/-- C3 witness: a concrete registered container destroyed with a
successful kill-tree outcome yields the pending-reap future on its
pid. -/
theorem destroy_reap_spec_witness :
    (destroy [(ContainerID.leaf "a", (7 : Pid))] (ContainerID.leaf "a")
      (.ok [])).1 = DestroyOutcome.pending 7 :=
  (destroy_reap_spec [(ContainerID.leaf "a", 7)] (ContainerID.leaf "a")
    (.ok []) 7 (by decide)).1

/-- C4: destroy on a registered identity removes the registry entry
synchronously: the registry returned by the call no longer contains the
identity (while the completion future is still pending), a fork before
the destroy is rejected, and a fork after it is accepted. -/
theorem destroy_removes_entry_synchronously (pids : Registry)
    (cid : ContainerID) (kt : TryResult (List Unit)) (p : Pid)
    (sp : TryResult Pid) (h : containsKey pids cid = true) :
    containsKey (destroy pids cid kt).2 cid = false ∧
    (fork pids cid none sp).result =
      .err ("Process has already been forked for container " ++
        stringifyCid cid) ∧
    (fork (destroy pids cid kt).2 cid none (.ok p)).result = .ok p := by
  have h2 : (destroy pids cid kt).2 = eraseKey pids cid := by
    simp [destroy, h]
  rw [h2]
  refine ⟨containsKey_eraseKey_self pids cid, ?_, ?_⟩
  · simp [fork, namespacesRequested, h]
  · simp [fork, namespacesRequested, containsKey_eraseKey_self]

/-- C4 witness: concrete instance on a one-entry registry. -/
theorem destroy_removes_entry_synchronously_witness :
    containsKey (destroy [(ContainerID.leaf "a", (7 : Pid))]
      (ContainerID.leaf "a") (.ok [])).2 (ContainerID.leaf "a") = false ∧
    (fork [(ContainerID.leaf "a", (7 : Pid))] (ContainerID.leaf "a") none
      (.ok 3)).result =
      .err ("Process has already been forked for container " ++
        stringifyCid (ContainerID.leaf "a")) ∧
    (fork (destroy [(ContainerID.leaf "a", (7 : Pid))] (ContainerID.leaf "a")
      (.ok [])).2 (ContainerID.leaf "a") none (.ok 9)).result = .ok 9 :=
  destroy_removes_entry_synchronously [(ContainerID.leaf "a", 7)]
    (ContainerID.leaf "a") (.ok []) 9 (.ok 3) (by decide)

/-- C8: destroy and status on an identity with no registry entry each
fail with the unknown-container error, and after a first destroy on a
registered identity, a second destroy on the same identity fails. -/
theorem unknown_container_destroy_status (pids pids2 : Registry)
    (cid : ContainerID) (kt kt' : TryResult (List Unit))
    (h : containsKey pids cid = false)
    (h2 : containsKey pids2 cid = true) :
    destroy pids cid kt =
      (.unknown ("Unknown container " ++ cid.value), pids) ∧
    status pids cid = (.err "Container does not exist!", pids) ∧
    destroy (destroy pids2 cid kt).2 cid kt' =
      (.unknown ("Unknown container " ++ cid.value),
        (destroy pids2 cid kt).2) := by
  have he : (destroy pids2 cid kt).2 = eraseKey pids2 cid := by
    simp [destroy, h2]
  refine ⟨by simp [destroy, h], by simp [status, h], ?_⟩
  rw [he]
  simp [destroy, containsKey_eraseKey_self]

/-- C8 witness: concrete instance on the empty registry and a one-entry
registry. -/
theorem unknown_container_destroy_status_witness :
    destroy [] (ContainerID.leaf "a") (.ok []) =
      (.unknown ("Unknown container " ++ (ContainerID.leaf "a").value), []) ∧
    status [] (ContainerID.leaf "a") =
      (.err "Container does not exist!", []) ∧
    destroy (destroy [(ContainerID.leaf "a", (7 : Pid))]
        (ContainerID.leaf "a") (.ok [])).2 (ContainerID.leaf "a") (.ok []) =
      (.unknown ("Unknown container " ++ (ContainerID.leaf "a").value),
        (destroy [(ContainerID.leaf "a", (7 : Pid))] (ContainerID.leaf "a")
          (.ok [])).2) :=
  unknown_container_destroy_status [] [(ContainerID.leaf "a", 7)]
    (ContainerID.leaf "a") (.ok []) (.ok []) (by decide) (by decide)

/-- C1 counterexample: on five associations with distinct identities
whose third repeats the first handle, recover does fail with the
duplicate message naming pid 1 and container c, but the registry is
left holding the two associations processed before the duplicate, not
empty; and on a list where the same identity is re-put with a new
handle, two distinct identities sharing a handle do not even make
recover fail. -/
theorem recover_all_or_nothing_cex :
    (recover [] [(ContainerID.leaf "a", (1 : Pid)), (ContainerID.leaf "b", 2),
        (ContainerID.leaf "c", 1), (ContainerID.leaf "d", 3),
        (ContainerID.leaf "e", 4)]).1 =
      RecoverResult.failure "Detected duplicate pid 1 for container c" ∧
    (recover [] [(ContainerID.leaf "a", (1 : Pid)), (ContainerID.leaf "b", 2),
        (ContainerID.leaf "c", 1), (ContainerID.leaf "d", 3),
        (ContainerID.leaf "e", 4)]).2 =
      [(ContainerID.leaf "a", 1), (ContainerID.leaf "b", 2)] ∧
    (recover [] [(ContainerID.leaf "a", (1 : Pid)), (ContainerID.leaf "a", 2),
        (ContainerID.leaf "c", 1)]).1 = RecoverResult.ok [] := by
  decide

/-- C1 (amended): recovery processes associations in order; at the
first association whose handle already appears as a registry value it
fails with the duplicate-pid error naming that handle and the identity
being processed, and the registry retains exactly the associations
inserted before that entry — it is not rolled back to empty. -/
theorem recover_duplicate_prefix_preserved
    (front : List (ContainerID × Pid)) (cid : ContainerID) (pid : Pid)
    (rest : List (ContainerID × Pid)) (s1 : Registry)
    (h1 : recover [] front = (RecoverResult.ok [], s1))
    (h2 : containsValue s1 pid = true) :
    recover [] (front ++ (cid, pid) :: rest) =
      (.failure ("Detected duplicate pid " ++ toString pid ++
        " for container " ++ stringifyCid cid), s1) := by
  rw [recover_append front [] s1 _ h1]
  simp [recover, h2]

/-- C1 (amended) witness: a clean one-entry run followed by a colliding
entry fails and keeps the first association. -/
theorem recover_duplicate_prefix_preserved_witness :
    recover [] ([(ContainerID.leaf "a", (1 : Pid))] ++
        (ContainerID.leaf "b", (1 : Pid)) :: []) =
      (.failure ("Detected duplicate pid " ++ toString (1 : Pid) ++
        " for container " ++ stringifyCid (ContainerID.leaf "b")),
       [(ContainerID.leaf "a", 1)]) :=
  recover_duplicate_prefix_preserved [(ContainerID.leaf "a", 1)]
    (ContainerID.leaf "b") 1 [] [(ContainerID.leaf "a", 1)]
    (by decide) (by decide)

/-- C9 counterexample: an association whose handle duplicates an entry
recorded for the very same identity does trigger the duplicate-handle
failure. -/
theorem recover_same_identity_duplicate_cex :
    recover [] [(ContainerID.leaf "a", (5 : Pid)), (ContainerID.leaf "a", 5)] =
      (RecoverResult.failure "Detected duplicate pid 5 for container a",
       [(ContainerID.leaf "a", 5)]) := by
  decide

/-- C9 (amended): during recovery, the duplicate-handle failure at an
association is raised exactly when its handle already appears as the
registry value of some identity processed earlier in the pass — the
same identity or a different one; otherwise the association is inserted
and the pass continues. -/
theorem recover_duplicate_handle_iff (pids : Registry) (cid : ContainerID)
    (pid : Pid) (rest : List (ContainerID × Pid)) :
    (containsValue pids pid = true ↔ ∃ e ∈ pids, e.2 = pid) ∧
    (containsValue pids pid = true →
      recover pids ((cid, pid) :: rest) =
        (.failure ("Detected duplicate pid " ++ toString pid ++
          " for container " ++ stringifyCid cid), pids)) ∧
    (containsValue pids pid = false →
      recover pids ((cid, pid) :: rest) = recover (putPid pids cid pid) rest) := by
  exact ⟨containsValue_iff pids pid, fun h => by simp [recover, h],
    fun h => by simp [recover, h]⟩

/-- C9 (amended) witness: the failure fires on a same-identity
collision. -/
theorem recover_duplicate_handle_iff_witness :
    recover [(ContainerID.leaf "a", (5 : Pid))]
        ((ContainerID.leaf "a", (5 : Pid)) :: []) =
      (.failure ("Detected duplicate pid " ++ toString (5 : Pid) ++
        " for container " ++ stringifyCid (ContainerID.leaf "a")),
       [(ContainerID.leaf "a", 5)]) :=
  (recover_duplicate_handle_iff [(ContainerID.leaf "a", 5)]
    (ContainerID.leaf "a") 5 []).2.1 (by decide)

/-- C5 witness: concrete double fork on the empty registry. -/
theorem fork_twice_already_launched_witness :
    (fork [] (ContainerID.leaf "a") none (.ok 7)).result = .ok 7 ∧
    fork (fork [] (ContainerID.leaf "a") none (.ok 7)).pids
        (ContainerID.leaf "a") none (.ok 8) =
      { result := .err ("Process has already been forked for container " ++
          stringifyCid (ContainerID.leaf "a")),
        pids := (fork [] (ContainerID.leaf "a") none (.ok 7)).pids,
        spawnInvoked := false } ∧
    lookupKey (fork [] (ContainerID.leaf "a") none (.ok 7)).pids
      (ContainerID.leaf "a") = some 7 :=
  fork_twice_already_launched [] (ContainerID.leaf "a") 7 none (.ok 8)
    (by decide) (by decide)

/-- C6 witness: concrete fork with namespaces = 1 is rejected without a
spawn. -/
theorem fork_namespaces_unsupported_witness :
    fork [] (ContainerID.leaf "a") (some 1) (.ok 7) =
      { result := .err "Posix launcher does not support namespaces",
        pids := [], spawnInvoked := false } :=
  fork_namespaces_unsupported [] (ContainerID.leaf "a") 1 (.ok 7) (by decide)

/-- C7 witness: concrete fork-then-status round trip. -/
theorem fork_then_status_witness :
    (fork [] (ContainerID.leaf "a") none (.ok 7)).result = .ok 7 ∧
    status (fork [] (ContainerID.leaf "a") none (.ok 7)).pids
        (ContainerID.leaf "a") =
      (.ok { executor_pid := 7 },
        (fork [] (ContainerID.leaf "a") none (.ok 7)).pids) :=
  fork_then_status [] (ContainerID.leaf "a") 7 (by decide)
